import Mathlib

/-!
A shallow embedding of `data_vault_validator.py` (a Snowflake data-vault
validation script) together with proofs about its discrepancy-classification
logic.  The external query engine is modelled as a pure function from
structured queries to either a row set or an error string; every `session.sql`
call site in the source is mirrored by one engine invocation.  Python integers
are modelled as `Int`; the float thresholds `0.01`, `0.05`, `0.10`, `0.20`,
`0.1` and `0.95` are modelled by exact integer arithmetic (truncating division
and cross-multiplication), which agrees with the float computations on all
realistically sized counts.  The JSON serialization of the per-table
discrepancy-detail blob and the purely printed diagnostics are not modelled;
all counts, messages and record lists that reach the result rows are.
-/

/-- Character-list prefix test (used to model Python `str.startswith`). -/
def isPrefixCh : List Char → List Char → Bool
  | [], _ => true
  | _ :: _, [] => false
  | p :: ps, c :: cs => p == c && isPrefixCh ps cs

/-- Character-list suffix test (used to model Python `str.endswith`). -/
def isSuffixCh (p s : List Char) : Bool :=
  isPrefixCh p.reverse s.reverse

/-- Substring test on character lists (used to model Python `in` on strings). -/
def hasSub : List Char → List Char → Bool
  | p, [] => isPrefixCh p []
  | p, c :: cs => isPrefixCh p (c :: cs) || hasSub p cs

/-- Lower-cased character list of a string, modelling Python `str.lower()`. -/
def lowerL (s : String) : List Char := s.toList.map Char.toLower

/-- Upper-cased character list of a string, modelling Python `str.upper()`. -/
def upperL (s : String) : List Char := s.toList.map Char.toUpper

/-- Models Python `pat in msg.lower()` for a lower-case literal pattern. -/
def pyIn (pat s : String) : Bool := hasSub pat.toList (lowerL s)

/-- Splits a character list on `'.'`, modelling Python `str.split('.')`. -/
def splitDotsAux : List Char → List Char → List (List Char)
  | [], acc => [acc.reverse]
  | '.' :: rest, acc => acc.reverse :: splitDotsAux rest []
  | c :: rest, acc => splitDotsAux rest (c :: acc)

/-- Models Python `s.split('.')`. -/
def splitDots (cs : List Char) : List (List Char) := splitDotsAux cs []

/-- Models Python `s.split('.')[-1]` on character lists. -/
def lastSegCh (cs : List Char) : List Char :=
  match (splitDots cs).getLast? with
  | some l => l
  | none => []

/-- Models Python `s.split('.')[-1]`. -/
def lastSegment (s : String) : String := String.mk (lastSegCh s.toList)

/-- Numeric value of a digit list (for the regex group `(\d+)`). -/
def natOfDigits (ds : List Char) : Nat :=
  ds.foldl (fun n c => n * 10 + (c.toNat - 48)) 0

/-- Splits a character list into its maximal leading digit run and the rest. -/
def digitsSplit : List Char → List Char × List Char
  | [] => ([], [])
  | c :: cs =>
    if c.isDigit then
      let p := digitsSplit cs
      (c :: p.1, p.2)
    else ([], c :: cs)

/-- Tail matcher for the regex `found only (\d+) (missing|truly missing) records`
after the literal `found only ` has been consumed. -/
def keyTailMatch (cs : List Char) : Option Nat :=
  let p := digitsSplit cs
  if p.1 = [] then none
  else if isPrefixCh " missing records".toList p.2 ∨
          isPrefixCh " truly missing records".toList p.2 then
    some (natOfDigits p.1)
  else none

/-- Leftmost search for the regex `found only (\d+) (missing|truly missing)
records`, modelling the `re.search` in `main` (source lines 644-647). -/
def searchFoundOnly : List Char → Option Nat
  | [] => none
  | c :: cs =>
    if isPrefixCh "found only ".toList (c :: cs) then
      match keyTailMatch (List.drop 11 (c :: cs)) with
      | some n => some n
      | none => searchFoundOnly cs
    else searchFoundOnly cs

/-- Models `re.search(r'found only (\d+) (missing|truly missing) records', s)`
followed by `int(match.group(1))`. -/
def parseFoundOnly (s : String) : Option Nat := searchFoundOnly s.toList

/-- Models Python `int(a * (1/b))` for the float fractions `0.01`, `0.05`,
`0.1`, `0.2` used by the source: truncation toward zero of `a / b`. -/
def truncDiv (a : Int) (b : Nat) : Int :=
  if 0 ≤ a then ((a.toNat / b : Nat) : Int) else -(((-a).toNat / b : Nat) : Int)

/-- One result row: column name / value pairs (values modelled as integers,
the only kind the validator's logic ever inspects). -/
abbrev Row := List (String × Int)

/-- Structured form of every SQL text the validator builds; one constructor
per distinct query shape, carrying exactly the data interpolated into the
SQL string, so that call sites that build identical SQL build equal queries. -/
inductive Query where
  /-- `SELECT 1 FROM {table} LIMIT 1` (accessibility probes). -/
  | probe (table : String)
  /-- `SELECT COUNT(*)/COUNT(DISTINCT col) FROM {table} [WHERE {filter}]`. -/
  | count (table : String) (filter : Option String) (countCol : Option String)
      (distinct : Bool)
  /-- `SELECT COUNT(*) FROM ({q})` over the configured EXCEPT query. -/
  | exceptCount (q : String)
  /-- `SELECT COUNT(*) FROM ( {q} ) missing_records` in `validate_missing_records`. -/
  | validationCount (q : String)
  /-- the simplified key-only EXCEPT check (source lines 267-274). -/
  | simplifiedKey (sourceKey sourceTable delCol hubKey hubTable : String)
  /-- `SELECT * FROM ({q}) LIMIT {limit}` (difference sample). -/
  | sample (q : String) (limit : Nat)
  /-- the INFORMATION_SCHEMA column-existence check (source line 448). -/
  | columnCheck (db schema table col : String)
  /-- `SELECT COUNT(*) FROM (SELECT * FROM {table} LIMIT {n})`. -/
  | limitSample (table : String) (n : Nat)
deriving DecidableEq

/-- The query-execution capability: SQL in, rows or an error out. -/
abbrev Engine := Query → Except String (List Row)

/-- Models `result[0][0] if result else 0`: first scalar of the first row,
`0` on an empty row set, an index error on an empty first row. -/
def firstScalar (rs : List Row) : Except String Int :=
  match rs with
  | [] => .ok 0
  | r :: _ =>
    match r with
    | [] => .error "list index out of range"
    | (_, v) :: _ => .ok v

/-- Models the guarded `session.sql(q).collect(); result[0][0] if result else 0`
pattern where any failure degrades to a zero count. -/
def scalarOr0 (e : Engine) (q : Query) : Int :=
  match e q with
  | .ok rows =>
    match firstScalar rows with
    | .ok c => c
    | .error _ => 0
  | .error _ => 0

/-- The SQL text `get_table_count` builds (source lines 100-109). -/
def sqlCount (t : String) (flt : Option String) (col : Option String) : String :=
  (match col with
   | some c => "SELECT COUNT(DISTINCT " ++ c ++ ") FROM " ++ t
   | none => "SELECT COUNT(*) FROM " ++ t) ++
  (match flt with
   | some f => " WHERE " ++ f
   | none => "")

/-- One table-pairing configuration (`table_configs` entry).  `none` models a
key absent from the Python dict; `some ""` a key present with an empty value
(the two behave differently under `dict.get` defaults and truthiness). -/
structure TableConfig where
  source_table : Option String
  hub_table : Option String
  hub_tables : Option (List String)
  cur_satellite_table : Option String
  bizview_table : Option String
  source_key : Option String
  hub_key : Option String
  satellite_hash_key : Option String
  bizview_key : Option String
  deleted_column : Option String
  custom_except_query : Option String
deriving DecidableEq

/-- Models `', '.join(l)`. -/
def joinComma : List String → String
  | [] => ""
  | [s] => s
  | s :: rest => s ++ ", " ++ joinComma rest

/-- Table-identity metadata attached to extracted records (source lines 325-331). -/
structure TableMeta where
  source_table : String
  hub_table : String
  satellite_table : String
  bizview_table : String
deriving DecidableEq

/-- One entry of the extracted-record list: a converted difference row, the
trailing sample-size note (source lines 336-345), or an error marker. -/
inductive DiffRec where
  | diff (fields : Row) (m : TableMeta)
  | note (shown : Nat) (total : Int) (validation : String) (m : TableMeta)
  | err (msg : String) (m : TableMeta)
deriving DecidableEq

/-- `get_table_count` (source lines 81-125): builds a count query, returns the
first scalar with the query text, degrading any failure to a zero count with
the error text. -/
def get_table_count (e : Engine) (tbl : Option String) (flt : Option String)
    (col : Option String) : Int × String :=
  match tbl with
  | none => (0, "No table specified")
  | some t =>
    if t = "" then (0, "No table specified")
    else
      match e (Query.count t flt col true) with
      | .ok rows =>
        match firstScalar rows with
        | .ok c => (c, sqlCount t flt col)
        | .error msg => (0, "Error executing count query for " ++ t ++ ": " ++ msg)
      | .error msg => (0, "Error executing count query for " ++ t ++ ": " ++ msg)

/-- `validate_missing_records` (source lines 127-163): re-counts the full
EXCEPT query; the caller only ever uses the returned message. -/
def validate_missing_records (e : Engine) (cfg : TableConfig) (mc : Int) :
    Int × String :=
  if mc = 0 then (0, "No missing records detected")
  else if cfg.source_key.getD "" = "" then
    (mc, "Could not validate: No source key defined")
  else
    match cfg.custom_except_query with
    | none => (mc, "Error validating missing records: 'custom_except_query'")
    | some q =>
      match e (Query.validationCount q) with
      | .ok rows =>
        match firstScalar rows with
        | .ok c => (c, "All records verified")
        | .error msg => (mc, "Error validating missing records: " ++ msg)
      | .error msg => (mc, "Error validating missing records: " ++ msg)

/-- The representation-difference warning message (source line 259). -/
def reprMsg (sc vc mc : Int) : String :=
  "Data representation differences detected: Source count (" ++ toString sc ++
  ") is close to vault count (" ++ toString vc ++ "), but EXCEPT query shows " ++
  toString mc ++
  " differences. This indicates schema/column mapping variations rather than missing data."

/-- The key-only-validation message appended at source line 281. -/
def keyOnlyMsg (n : Int) : String :=
  " Key-only validation found only " ++ toString n ++
  " truly missing records, confirming this is primarily a schema/data representation difference rather than missing data."

/-- The hub-table list used inside `extract_missing_records` (source lines 187-193). -/
def extHubTables (cfg : TableConfig) : List String :=
  match cfg.hub_tables with
  | some l => l
  | none => [cfg.hub_table.getD "UNKNOWN_HUB"]

/-- Metadata values used inside `extract_missing_records` (source lines 184-196). -/
def metaOf (cfg : TableConfig) : TableMeta :=
  { source_table := cfg.source_table.getD "UNKNOWN_SOURCE"
    hub_table :=
      match cfg.hub_tables with
      | some l => joinComma l
      | none => cfg.hub_table.getD "UNKNOWN_HUB"
    satellite_table := cfg.cur_satellite_table.getD "UNKNOWN_SATELLITE"
    bizview_table := cfg.bizview_table.getD "UNKNOWN_BIZVIEW" }

/-- The non-deleted source count obtained inside `extract_missing_records`
(source lines 217-225); stays `0` when no deleted column is configured or the
query fails. -/
def extSourceCountOf (e : Engine) (cfg : TableConfig) : Int :=
  match cfg.deleted_column with
  | none => 0
  | some d =>
    scalarOr0 e
      (Query.count (cfg.source_table.getD "UNKNOWN_SOURCE")
        (some (d ++ " = FALSE")) none true)

/-- The vault-side count obtained inside `extract_missing_records` (source
lines 227-244): satellite count when the satellite name is truthy (hash-key
distinct count when a hash key is configured), else first hub table count. -/
def extVaultCountOf (e : Engine) (cfg : TableConfig) : Int :=
  let sat := cfg.cur_satellite_table.getD "UNKNOWN_SATELLITE"
  if sat ≠ "" then
    if cfg.satellite_hash_key.getD "" ≠ "" then
      scalarOr0 e (Query.count sat none (some (cfg.satellite_hash_key.getD "")) true)
    else
      scalarOr0 e (Query.count sat none none true)
  else
    match extHubTables cfg with
    | [] => 0
    | h :: _ => scalarOr0 e (Query.count h none none true)

/-- The count query over the configured EXCEPT query (source lines 204-209). -/
def exceptCountOf (e : Engine) (cfg : TableConfig) : Except String Int :=
  match e (Query.exceptCount (cfg.custom_except_query.getD "")) with
  | .error msg => .error msg
  | .ok rows => firstScalar rows

/-- The representation-difference double check of `extract_missing_records`
(source lines 246-288).  Returns the possibly reset difference count and the
accumulated validation message; the error case models the uncaught
`hub_tables[0]` index error on an empty hub list (source line 272), which the
enclosing handler at line 294 catches. -/
def heuristicOf (e : Engine) (cfg : TableConfig) (mc : Int) :
    Except String (Int × String) :=
  let sc := extSourceCountOf e cfg
  let vc := extVaultCountOf e cfg
  if 0 < sc ∧ 0 < vc then
    if |sc - vc| < max 5 (truncDiv sc 100) then
      if |sc - vc| * 2 < mc then
        let vmsg := reprMsg sc vc mc
        if cfg.source_key.getD "" ≠ "" ∧ cfg.hub_key.getD "" ≠ "" then
          match extHubTables cfg with
          | [] => .error "list index out of range"
          | h0 :: _ =>
            match e (Query.simplifiedKey (cfg.source_key.getD "")
                (cfg.source_table.getD "UNKNOWN_SOURCE")
                (cfg.deleted_column.getD "TRUE")
                (cfg.hub_key.getD "") h0) with
            | .ok rows =>
              match firstScalar rows with
              | .ok simplified =>
                if simplified = 0 ∨ simplified * 10 < mc then
                  if simplified = 0 then .ok (0, vmsg ++ keyOnlyMsg simplified)
                  else .ok (mc, vmsg ++ keyOnlyMsg simplified)
                else .ok (mc, vmsg)
              | .error _ => .ok (mc, vmsg)
            | .error _ => .ok (mc, vmsg)
        else .ok (mc, vmsg)
      else .ok (mc, "")
    else .ok (mc, "")
  else .ok (mc, "")

/-- The tail of `extract_missing_records` on the resolved validation message
(source lines 298-363): return zero early on a zero or
representation-classified count, else draw the bounded sample. -/
def extractFinishV (e : Engine) (cfg : TableConfig) (limit : Nat) (mc : Int)
    (vmsg : String) : Int × List DiffRec × String :=
  if mc = 0 ∨ pyIn "representation differences" vmsg then (0, [], vmsg)
  else
    let m := metaOf cfg
    let sample_limit := if 100 < mc then min limit 10 else limit
    match e (Query.sample (cfg.custom_except_query.getD "") sample_limit) with
    | .error msg =>
      (mc, [DiffRec.err ("Error collecting sample records: " ++ msg) m],
        "Failed to collect samples")
    | .ok srows =>
      let recs := srows.map (fun r => DiffRec.diff r m)
      let recs2 := if (sample_limit : Int) < mc then
          recs ++ [DiffRec.note sample_limit mc vmsg m]
        else recs
      (if pyIn "representation differences" vmsg then 0 else mc, recs2, vmsg)

/-- The tail of `extract_missing_records` (source lines 290-363): fall back to
`validate_missing_records` when the double check produced no message, then
finish on the resolved message. -/
def extractFinish (e : Engine) (cfg : TableConfig) (limit : Nat) (mc : Int)
    (hmsg : String) : Int × List DiffRec × String :=
  extractFinishV e cfg limit mc
    (if hmsg = "" then (validate_missing_records e cfg mc).2 else hmsg)

/-- The region of `extract_missing_records` guarded by the handler at source
line 294 (lines 204-292), continued by the sampling tail. -/
def extractAfterCount (e : Engine) (cfg : TableConfig) (limit : Nat) :
    Except String (Int × List DiffRec × String) :=
  match exceptCountOf e cfg with
  | .error msg => .error msg
  | .ok mc =>
    if mc = 0 then .ok (0, [], "No record differences found")
    else
      match heuristicOf e cfg mc with
      | .error msg => .error msg
      | .ok p => .ok (extractFinish e cfg limit p.1 p.2)

/-- `extract_missing_records` (source lines 165-376): the difference count, a
bounded converted sample, and the validation message. -/
def extract_missing_records (e : Engine) (cfg : TableConfig) (limit : Nat) :
    Int × List DiffRec × String :=
  if cfg.custom_except_query.getD "" = "" then (0, [], "No EXCEPT query defined")
  else
    match extractAfterCount e cfg limit with
    | .ok r => r
    | .error msg => (0, [], "Error counting record differences: " ++ msg)

/-- Source-table total count in `main` (source line 579). -/
def sourceCountOf (e : Engine) (cfg : TableConfig) : Int :=
  (get_table_count e cfg.source_table none none).1

/-- Non-deleted source count in `main` (source lines 583-592). -/
def nonDeletedOf (e : Engine) (cfg : TableConfig) : Int :=
  match cfg.deleted_column with
  | some d => (get_table_count e cfg.source_table (some (d ++ " = FALSE")) none).1
  | none => sourceCountOf e cfg

/-- Deleted-record count in `main` (source line 590): always the difference
of the two source counts when a deleted column is configured, else `0`. -/
def deletedOf (e : Engine) (cfg : TableConfig) : Int :=
  match cfg.deleted_column with
  | some _ => sourceCountOf e cfg - nonDeletedOf e cfg
  | none => 0

/-- The hub-table list used in `main` (source lines 551-557). -/
def mainHubTables (cfg : TableConfig) : List String :=
  match cfg.hub_tables with
  | some l => l
  | none => [cfg.hub_table.getD ""]

/-- Summed hub count in `main` (source lines 596-604). -/
def hubCountOf (e : Engine) (cfg : TableConfig) : Int :=
  (mainHubTables cfg).foldl
    (fun acc h => if h = "" then acc else acc + (get_table_count e (some h) none none).1) 0

/-- Tests whether the satellite table name marks a current satellite
(`"_LROC_" in name.upper() or "_MROC_" in name.upper()`, source line 612). -/
def lrocMarker (sat : String) : Bool :=
  hasSub "_LROC_".toList (upperL sat) || hasSub "_MROC_".toList (upperL sat)

/-- Satellite count in `main` (source lines 606-621): distinct hash-key count
only when a hash key is configured and the name carries an LROC/MROC marker,
else a plain `COUNT(*)`. -/
def satCountOf (e : Engine) (cfg : TableConfig) : Int × String :=
  let sat := cfg.cur_satellite_table.getD ""
  if sat = "" then (0, "No satellite table")
  else if cfg.satellite_hash_key.getD "" ≠ "" ∧ lrocMarker sat then
    get_table_count e (some sat) none (some (cfg.satellite_hash_key.getD ""))
  else
    get_table_count e (some sat) none none

/-- The known-large bizview names of `get_bizview_count` (source line 406). -/
def knownLargeB (n : String) : Bool :=
  n = "FACT_SALES" ∨ n = "FACT_TRANSACTIONS"

/-- `get_bizview_count` (source lines 378-499): accessibility probe, the
direct count for known-large views, then the key-based, deleted-flag and
plain-count strategies with the low-count sampling fallback. -/
def get_bizview_count (e : Engine) (cfg : TableConfig) : Int × String :=
  match cfg.bizview_table with
  | none => (0, "No bizview table specified")
  | some bt =>
    if bt = "" then (0, "No bizview table specified")
    else
      match e (Query.probe bt) with
      | .error msg => (0, "Bizview table access error: " ++ msg)
      | .ok _ =>
        let bname := String.mk ((lastSegCh bt.toList).map Char.toUpper)
        let direct : Option (Int × String) :=
          if knownLargeB bname then
            match e (Query.count bt none none true) with
            | .ok rows =>
              match firstScalar rows with
              | .ok c => some (c, sqlCount bt none none)
              | .error _ => none
            | .error _ => none
          else none
        match direct with
        | some r => r
        | none =>
          let s1 : Option (Int × String) :=
            let bk := cfg.bizview_key.getD ""
            if bk = "" then none
            else
              match e (Query.count bt (some (bk ++ " IS NOT NULL")) (some bk) true) with
              | .ok rows =>
                match firstScalar rows with
                | .ok c =>
                  if c < 100 ∧ ¬(bname = "DIM_SMALL_LOOKUP" ∨ bname = "DIM_CONFIG") then
                    none
                  else some (c, sqlCount bt (some (bk ++ " IS NOT NULL")) (some bk))
                | .error _ => none
              | .error _ => none
          match s1 with
          | some r => r
          | none =>
            let s2 : Option (Int × String) :=
              let d := cfg.deleted_column.getD ""
              if d = "" then none
              else
                match splitDots bt.toList with
                | [db, sch, tbl] =>
                  match e (Query.columnCheck (String.mk db) (String.mk sch)
                      (String.mk tbl) d) with
                  | .ok checkRows =>
                    if checkRows ≠ [] then
                      match e (Query.count bt (some (d ++ " = FALSE")) none true) with
                      | .ok rows =>
                        match firstScalar rows with
                        | .ok c => some (c, sqlCount bt (some (d ++ " = FALSE")) none)
                        | .error _ => none
                      | .error _ => none
                    else none
                  | .error _ => none
                | _ => none
            match s2 with
            | some r => r
            | none =>
              match e (Query.count bt none none true) with
              | .error msg => (0, "Error in get_bizview_count: " ++ msg)
              | .ok rows =>
                match firstScalar rows with
                | .error msg => (0, "Error in get_bizview_count: " ++ msg)
                | .ok c =>
                  let cq := sqlCount bt none none
                  if c < 100 ∧ hasSub "FACT_".toList (upperL bt) then
                    match e (Query.limitSample bt 10000) with
                    | .ok srows =>
                      match firstScalar srows with
                      | .ok sc =>
                        if c < sc then
                          match e (Query.limitSample bt 1000000) with
                          | .ok erows =>
                            match firstScalar erows with
                            | .ok ec =>
                              if c < ec then
                                (ec, "SELECT COUNT(*) FROM (SELECT * FROM " ++ bt ++
                                  " LIMIT 1000000)")
                              else (c, cq)
                            | .error _ => (c, cq)
                          | .error _ => (c, cq)
                        else (c, cq)
                      | .error _ => (c, cq)
                    | .error _ => (c, cq)
                  else (c, cq)

/-- Bizview count in `main` (source lines 623-629). -/
def bizviewCountOf (e : Engine) (cfg : TableConfig) : Int × String :=
  if cfg.bizview_table.getD "" = "" then (0, "No bizview table")
  else get_bizview_count e cfg

/-- The vault reference picked by the classifier cross-check (source line 657):
the satellite count whenever it is positive, else the hub count. -/
def vaultRef (satc hubc : Int) : Int :=
  if 0 < satc then satc else hubc

/-- `expected_diff` of the classifier cross-check (source line 657). -/
def expectedDiff (ndc satc hubc : Int) : Int :=
  |ndc - vaultRef satc hubc|

/-- The count-comparison note appended at source line 661. -/
def crossNote (ed shd : Int) : String :=
  " Count comparison shows expected diff of " ++ toString ed ++
  " vs. reported " ++ toString shd ++ "."

/-- The override note appended at source line 668. -/
def overrideNote : String :=
  " Based on count comparison, there appears to be no actual data loss, only representation differences."

/-- The classifier cross-check of `main` (source lines 654-668) on the pair
(true-missing, representation-difference) and the validation message. -/
def crossCheck (shd drd : Int) (vmsg : String) (ndc satc hubc : Int) :
    Int × Int × String :=
  if 0 < shd then
    if max 5 (truncDiv (expectedDiff ndc satc hubc) 10) <
        |shd - expectedDiff ndc satc hubc| then
      if expectedDiff ndc satc hubc < 5 ∧ 10 < shd then
        (0, shd, vmsg ++ crossNote (expectedDiff ndc satc hubc) shd ++ overrideNote)
      else (shd, drd, vmsg ++ crossNote (expectedDiff ndc satc hubc) shd)
    else (shd, drd, vmsg)
  else (shd, drd, vmsg)

/-- The message-driven split of `main` (source lines 634-652): the
representation-difference branch, then the dead message-reparsing branch. -/
def branchAdjust (shd0 : Int) (vmsg : String) : Int × Int :=
  if pyIn "representation differences" vmsg then (0, shd0)
  else if pyIn "key-only validation" vmsg then
    match parseFoundOnly vmsg with
    | some t => ((t : Int), shd0 - (t : Int))
    | none => (shd0, shd0)
  else (shd0, shd0)

/-- The full classifier of `main` (source lines 634-668): message-driven
split followed by the count cross-check. -/
def classifyCounts (shd0 : Int) (vmsg : String) (ndc satc hubc : Int) :
    Int × Int × String :=
  crossCheck (branchAdjust shd0 vmsg).1 (branchAdjust shd0 vmsg).2 vmsg ndc satc hubc

/-- The classifier applied to the mapping's extractor result and counts, as
`main` does at source lines 632-668. -/
def classifiedOf (e : Engine) (cfg : TableConfig) : Int × Int × String :=
  classifyCounts (extract_missing_records e cfg 10).1
    (extract_missing_records e cfg 10).2.2
    (nonDeletedOf e cfg) (satCountOf e cfg).1 (hubCountOf e cfg)

/-- The bizview comparison structure assembled in `main` (source lines 807-829). -/
structure BizComp where
  bizview_type : String
  is_direct_mapping : Bool
  reference_type : String
  reference_count : Int
  bizview_count : Int
  comparison_direction : String
  raw_difference : Int
  threshold : Int
  missing : Int
deriving DecidableEq

/-- The bizview reconciliation of `main` (source lines 698-805): view-type
inference by name, reference selection, adaptive threshold, direction,
empty-bizview special case and the filtering-pattern suppression.  The error
case models the division by zero at source line 786 (caught at line 831). -/
def bizviewReconcile (bt : String) (hubc satc ndc bvc : Int)
    (satTable : String) : Except String BizComp :=
  let name := String.mk ((lastSegCh bt.toList).map Char.toLower)
  let btype :=
    if isPrefixCh "dim_".toList name.toList ∨
        isPrefixCh "dimension_".toList name.toList then "dimension"
    else if isPrefixCh "fact_".toList name.toList ∨
        isPrefixCh "bridge_".toList name.toList ∨
        isPrefixCh "link_".toList name.toList then "fact"
    else "unknown"
  let direct := btype = "dimension"
  let refPair : Int × String :=
    if direct then (hubc, "hub")
    else if btype = "fact" ∧ 0 < ndc then (ndc, "source (non-deleted)")
    else if 0 < satc ∧ satTable ≠ "" then (satc, "satellite")
    else (hubc, "hub")
  let refc := refPair.1
  let den : Nat := if btype = "dimension" then 20 else if btype = "fact" then 5 else 10
  let threshold := max 5 (truncDiv refc den)
  let dirPair : Int × String :=
    if bvc ≤ refc then (refc - bvc, "bizview_smaller")
    else (bvc - refc, "bizview_larger")
  let raw := dirPair.1
  let missingE : Except String Int :=
    if bvc = 0 ∧ 0 < refc then .ok refc
    else if threshold < raw then
      if dirPair.2 = "bizview_smaller" ∧
          (isPrefixCh "fact_".toList name.toList ∨
           isSuffixCh "_current".toList name.toList ∨
           isSuffixCh "_active".toList name.toList) then
        if refc = 0 then .error "division by zero"
        else if (if 0 < refc then raw * 20 < refc * 19 else refc * 19 < raw * 20) then
          .ok 0
        else .ok raw
      else .ok raw
    else .ok 0
  match missingE with
  | .error msg => .error msg
  | .ok missing =>
    .ok { bizview_type := btype, is_direct_mapping := direct,
          reference_type := refPair.2, reference_count := refc,
          bizview_count := bvc, comparison_direction := dirPair.2,
          raw_difference := raw, threshold := threshold, missing := missing }

/-- The bizview-missing count recorded by `main` (source lines 691-839):
zero when no bizview is configured or the comparison raised. -/
def bizMissingOf (e : Engine) (cfg : TableConfig) : Int :=
  let bt := cfg.bizview_table.getD ""
  if bt = "" then 0
  else
    match bizviewReconcile bt (hubCountOf e cfg) (satCountOf e cfg).1
        (nonDeletedOf e cfg) (bizviewCountOf e cfg).1
        (cfg.cur_satellite_table.getD "") with
    | .ok c => c.missing
    | .error _ => 0

/-- One output row of `main` (source lines 848-865); the serialized
discrepancy-detail blob is carried as the raw record list. -/
structure Report where
  table_name : String
  source_table : String
  hub_table : String
  satellite_table : String
  bizview_table : String
  source_count : Int
  non_deleted_count : Int
  hub_count : Int
  sat_count : Int
  bizview_count : Int
  source_to_vault_differences : Int
  data_representation_differences : Int
  bizview_missing_records : Int
  deleted_count : Int
  validation_message : String
  difference_records : List DiffRec
deriving DecidableEq

/-- The per-mapping pipeline of `main` after the source table proved
accessible (source lines 578-865). -/
def buildReport (e : Engine) (cfg : TableConfig) : Report :=
  { table_name := String.mk (lastSegCh (cfg.source_table.getD "").toList)
    source_table := cfg.source_table.getD "None"
    hub_table :=
      match cfg.hub_tables with
      | some l => joinComma l
      | none => cfg.hub_table.getD ""
    satellite_table := cfg.cur_satellite_table.getD ""
    bizview_table := cfg.bizview_table.getD ""
    source_count := sourceCountOf e cfg
    non_deleted_count := nonDeletedOf e cfg
    hub_count := hubCountOf e cfg
    sat_count := (satCountOf e cfg).1
    bizview_count := (bizviewCountOf e cfg).1
    source_to_vault_differences := (classifiedOf e cfg).1
    data_representation_differences := (classifiedOf e cfg).2.1
    bizview_missing_records := bizMissingOf e cfg
    deleted_count := deletedOf e cfg
    validation_message := (classifiedOf e cfg).2.2
    difference_records := (extract_missing_records e cfg 10).2.1 }

/-- One iteration of the mapping loop of `main` (source lines 545-869):
`none` when the source-table accessibility probe fails (the `continue` at
line 576); every other failure mode inside the iteration is already degraded
to a value by the guarded steps above. -/
def processConfig (e : Engine) (cfg : TableConfig) : Option Report :=
  match e (Query.probe (cfg.source_table.getD "None")) with
  | .error _ => none
  | .ok _ => some (buildReport e cfg)

/-- The mapping loop of `main`: one report per mapping whose probe succeeded,
in configuration order. -/
def runMain (e : Engine) (cfgs : List TableConfig) : List Report :=
  cfgs.filterMap (processConfig e)

/-- Engines whose successful results carry only non-negative scalars, as any
real SQL COUNT does. -/
def NonnegEngine (e : Engine) : Prop :=
  ∀ q rs, e q = .ok rs → ∀ r ∈ rs, ∀ p ∈ r, 0 ≤ p.2

/-- A mapping with a deleted column, single hub, no satellite and an EXCEPT
query, used to exercise the default classification path. -/
def cfgC1 : TableConfig :=
  { source_table := some "S.SCH.T1", hub_table := some "DV.RV.H1",
    hub_tables := none, cur_satellite_table := none, bizview_table := none,
    source_key := some "ID", hub_key := some "HID", satellite_hash_key := none,
    bizview_key := none, deleted_column := some "IS_DELETED",
    custom_except_query := some "EQ1" }

/-- An engine for `cfgC1`: 20 raw differences, source 12/10 non-deleted, hub
60, validation count 20, empty sample; the satellite query errors. -/
def engC1 : Engine := fun q =>
  match q with
  | .probe "S.SCH.T1" => .ok [[("X", 1)]]
  | .exceptCount "EQ1" => .ok [[("C", 20)]]
  | .count "S.SCH.T1" none none true => .ok [[("C", 12)]]
  | .count "S.SCH.T1" (some "IS_DELETED = FALSE") none true => .ok [[("C", 10)]]
  | .count "DV.RV.H1" none none true => .ok [[("C", 60)]]
  | .validationCount "EQ1" => .ok [[("C", 20)]]
  | .sample "EQ1" 10 => .ok []
  | _ => .error "unexpected query"

/-- A mapping whose satellite key is present but empty, so the extractor's
vault count falls back to the hub table. -/
def cfgC2 : TableConfig :=
  { source_table := some "S.S.T2", hub_table := some "DV.H2",
    hub_tables := none, cur_satellite_table := some "", bizview_table := none,
    source_key := some "ID2", hub_key := some "HID2", satellite_hash_key := none,
    bizview_key := none, deleted_column := some "ISD",
    custom_except_query := some "EQ2" }

/-- An engine for `cfgC2`: 50 raw differences against source 1000 / hub 998
(heuristic triggers), and a secondary key-only count of 50 — equal to the
raw count, so not below one tenth of it. -/
def engC2 : Engine := fun q =>
  match q with
  | .probe "S.S.T2" => .ok [[("X", 1)]]
  | .exceptCount "EQ2" => .ok [[("C", 50)]]
  | .count "S.S.T2" none none true => .ok [[("C", 1000)]]
  | .count "S.S.T2" (some "ISD = FALSE") none true => .ok [[("C", 1000)]]
  | .count "DV.H2" none none true => .ok [[("C", 998)]]
  | .simplifiedKey "ID2" "S.S.T2" "ISD" "HID2" "DV.H2" => .ok [[("C", 50)]]
  | .validationCount "EQ2" => .ok [[("C", 50)]]
  | .sample "EQ2" 10 => .ok []
  | _ => .error "unexpected query"

/-- Three mappings for the graceful-degradation run: two healthy ones around
one whose source table the engine refuses to touch. -/
def cfgC3a : TableConfig :=
  { source_table := some "A.S.T", hub_table := some "DV.HA",
    hub_tables := none, cur_satellite_table := none, bizview_table := none,
    source_key := none, hub_key := none, satellite_hash_key := none,
    bizview_key := none, deleted_column := none, custom_except_query := none }

/-- The mapping whose every query fails in the graceful-degradation run. -/
def cfgC3bad : TableConfig :=
  { source_table := some "BAD.S.T", hub_table := some "DV.HBAD",
    hub_tables := none, cur_satellite_table := none, bizview_table := none,
    source_key := none, hub_key := none, satellite_hash_key := none,
    bizview_key := none, deleted_column := none, custom_except_query := none }

/-- The trailing healthy mapping of the graceful-degradation run. -/
def cfgC3b : TableConfig :=
  { source_table := some "B.S.T", hub_table := some "DV.HB",
    hub_tables := none, cur_satellite_table := none, bizview_table := none,
    source_key := none, hub_key := none, satellite_hash_key := none,
    bizview_key := none, deleted_column := none, custom_except_query := none }

/-- An engine that raises on every query touching `BAD.S.T` and answers a
constant scalar everywhere else. -/
def engC3 : Engine := fun q =>
  match q with
  | .probe "BAD.S.T" => .error "SQL compilation error: table does not exist"
  | .count "BAD.S.T" _ _ _ => .error "SQL compilation error: table does not exist"
  | _ => .ok [[("C", 1)]]

/-- A mapping with a configured current satellite (LROC name and hash key)
whose satellite count query the engine answers with zero. -/
def cfgC5 : TableConfig :=
  { source_table := some "S.S.T5", hub_table := some "DV.H5",
    hub_tables := none, cur_satellite_table := some "DV.RV.S_T5_LROC_X",
    bizview_table := none, source_key := some "ID5", hub_key := some "HID5",
    satellite_hash_key := some "HK5", bizview_key := none,
    deleted_column := none, custom_except_query := some "EQ5" }

/-- An engine for `cfgC5`: source 10, hub 7, satellite count 0, 20 raw
differences verified by the full-count re-check. -/
def engC5 : Engine := fun q =>
  match q with
  | .probe "S.S.T5" => .ok [[("X", 1)]]
  | .exceptCount "EQ5" => .ok [[("C", 20)]]
  | .count "S.S.T5" none none true => .ok [[("C", 10)]]
  | .count "DV.H5" none none true => .ok [[("C", 7)]]
  | .count "DV.RV.S_T5_LROC_X" none (some "HK5") true => .ok [[("C", 0)]]
  | .validationCount "EQ5" => .ok [[("C", 20)]]
  | .sample "EQ5" 10 => .ok []
  | _ => .error "unexpected query"

/-- A mapping without a deleted-flag column, for the count invariant. -/
def cfgC6 : TableConfig :=
  { source_table := some "S.S.T6", hub_table := some "DV.H6",
    hub_tables := none, cur_satellite_table := none, bizview_table := none,
    source_key := none, hub_key := none, satellite_hash_key := none,
    bizview_key := none, deleted_column := none, custom_except_query := none }

/-- A constant engine answering every query with the scalar 9. -/
def engC6 : Engine := fun _ => .ok [[("C", 9)]]

/-- A minimal mapping with only an EXCEPT query, for the difference floor. -/
def cfgC7 : TableConfig :=
  { source_table := some "S.S.T7", hub_table := some "DV.H7",
    hub_tables := none, cur_satellite_table := none, bizview_table := none,
    source_key := none, hub_key := none, satellite_hash_key := none,
    bizview_key := none, deleted_column := none,
    custom_except_query := some "EQ7" }

/-- An adversarial engine answering the difference count query with `-5` and
everything else with an empty row set. -/
def engC7 : Engine := fun q =>
  match q with
  | .exceptCount "EQ7" => .ok [[("C", -5)]]
  | _ => .ok []

/-- A well-behaved constant engine answering every query with the scalar 0. -/
def engC7w : Engine := fun _ => .ok [[("C", 0)]]

/-- A mapping with an EXCEPT query and a source key, for the sample cap. -/
def cfgC9 : TableConfig :=
  { source_table := some "S.S.T9", hub_table := some "DV.H9",
    hub_tables := none, cur_satellite_table := none, bizview_table := none,
    source_key := some "ID9", hub_key := none, satellite_hash_key := none,
    bizview_key := none, deleted_column := none,
    custom_except_query := some "EQ9" }

/-- Ten identical sample rows, the row set a LIMIT-10 sample query returns
when 5000 rows differ. -/
def rowsC9 : List Row := List.replicate 10 [("K", 1)]

/-- An engine for `cfgC9`: 5000 raw differences and a ten-row sample. -/
def engC9 : Engine := fun q =>
  match q with
  | .exceptCount "EQ9" => .ok [[("C", 5000)]]
  | .validationCount "EQ9" => .ok [[("C", 5000)]]
  | .sample "EQ9" 10 => .ok rowsC9
  | _ => .error "unexpected query"

/-- A mapping with a configured satellite whose name carries no LROC/MROC
marker although a hash key is configured. -/
def cfgC10 : TableConfig :=
  { source_table := some "S.S.T10", hub_table := some "DV.H10",
    hub_tables := none, cur_satellite_table := some "DV.RV.S_T10_HIST",
    bizview_table := none, source_key := none, hub_key := none,
    satellite_hash_key := some "HK10", bizview_key := none,
    deleted_column := none, custom_except_query := none }

/-- A mapping with a configured current satellite (LROC marker in the name)
and a configured hash key. -/
def cfgC10L : TableConfig :=
  { source_table := some "S.S.T10", hub_table := some "DV.H10",
    hub_tables := none, cur_satellite_table := some "DV.RV.S_T10_LROC_X",
    bizview_table := none, source_key := none, hub_key := none,
    satellite_hash_key := some "HK10", bizview_key := none,
    deleted_column := none, custom_except_query := none }

/-- A mapping with a configured satellite carrying an LROC marker but no
configured hash key at all. -/
def cfgC10n : TableConfig :=
  { source_table := some "S.S.T10", hub_table := some "DV.H10",
    hub_tables := none, cur_satellite_table := some "DV.RV.S_T10_LROC_X",
    bizview_table := none, source_key := none, hub_key := none,
    satellite_hash_key := none, bizview_key := none,
    deleted_column := none, custom_except_query := none }

/-- A constant engine answering every query with the scalar 77. -/
def engC10 : Engine := fun _ => .ok [[("C", 77)]]

theorem isPrefixCh_append (p a b : List Char) (h : isPrefixCh p a = true) :
    isPrefixCh p (a ++ b) = true := by
  induction p generalizing a with
  | nil => simp [isPrefixCh]
  | cons x xs ih =>
    cases a with
    | nil => simp [isPrefixCh] at h
    | cons y ys =>
      simp only [isPrefixCh, Bool.and_eq_true] at h ⊢
      exact ⟨h.1, ih ys h.2⟩

theorem hasSub_append_left (p a b : List Char) (h : hasSub p a = true) :
    hasSub p (a ++ b) = true := by
  induction a with
  | nil =>
    cases p with
    | nil =>
      cases b with
      | nil => simpa using h
      | cons c cs => simp [hasSub, isPrefixCh]
    | cons x xs => simp [hasSub, isPrefixCh] at h
  | cons c cs ih =>
    simp only [hasSub, Bool.or_eq_true, List.cons_append] at h ⊢
    rcases h with h | h
    · exact Or.inl (isPrefixCh_append _ _ _ h)
    · exact Or.inr (ih h)

theorem lowerL_append (s t : String) : lowerL (s ++ t) = lowerL s ++ lowerL t := by
  simp [lowerL, String.toList, String.data_append]

theorem pyIn_append_left (pat s t : String) (h : pyIn pat s = true) :
    pyIn pat (s ++ t) = true := by
  unfold pyIn at h ⊢
  rw [lowerL_append]
  exact hasSub_append_left _ _ _ h

theorem pyIn_reprMsg (sc vc mc : Int) :
    pyIn "representation differences" (reprMsg sc vc mc) = true := by
  unfold reprMsg
  repeat apply pyIn_append_left
  decide

theorem pyIn_repr_ne_empty (s : String)
    (h : pyIn "representation differences" s = true) : s ≠ "" := by
  intro he
  rw [he] at h
  exact absurd h (by decide)

theorem extractFinishV_repr (e : Engine) (cfg : TableConfig) (l : Nat)
    (mc : Int) (vmsg : String)
    (h : pyIn "representation differences" vmsg = true) :
    extractFinishV e cfg l mc vmsg = (0, [], vmsg) := by
  unfold extractFinishV
  rw [if_pos (Or.inr h)]

theorem extractFinish_repr (e : Engine) (cfg : TableConfig) (l : Nat)
    (mc : Int) (hmsg : String)
    (h : pyIn "representation differences" hmsg = true) :
    extractFinish e cfg l mc hmsg = (0, [], hmsg) := by
  unfold extractFinish
  rw [if_neg (pyIn_repr_ne_empty hmsg h)]
  exact extractFinishV_repr e cfg l mc hmsg h

theorem extractFinishV_count (e : Engine) (cfg : TableConfig) (l : Nat)
    (mc : Int) (vmsg : String) :
    (extractFinishV e cfg l mc vmsg).1 = 0 ∨
      (extractFinishV e cfg l mc vmsg).1 = mc := by
  unfold extractFinishV
  split
  · exact Or.inl rfl
  · dsimp only
    repeat' split
    all_goals simp

theorem extractFinish_count (e : Engine) (cfg : TableConfig) (l : Nat)
    (mc : Int) (hmsg : String) :
    (extractFinish e cfg l mc hmsg).1 = 0 ∨
      (extractFinish e cfg l mc hmsg).1 = mc := by
  unfold extractFinish
  exact extractFinishV_count e cfg l mc _

theorem heuristic_count (e : Engine) (cfg : TableConfig) (mc : Int)
    (p : Int × String) (h : heuristicOf e cfg mc = .ok p) :
    p.1 = mc ∨ (p.1 = 0 ∧ pyIn "representation differences" p.2 = true) := by
  simp only [heuristicOf] at h
  repeat' split at h
  all_goals (cases h)
  all_goals (try exact Or.inl rfl)
  all_goals
    exact Or.inr ⟨rfl, pyIn_append_left _ _ _ (pyIn_reprMsg _ _ _)⟩

theorem heuristic_ok (e : Engine) (cfg : TableConfig) (mc : Int)
    (hhub : extHubTables cfg ≠ []) :
    ∃ p, heuristicOf e cfg mc = .ok p := by
  simp only [heuristicOf]
  repeat' split
  all_goals (first | exact ⟨_, rfl⟩ | simp_all)

theorem heuristic_triggered (e : Engine) (cfg : TableConfig) (mc : Int)
    (p : Int × String)
    (hs : 0 < extSourceCountOf e cfg) (hv : 0 < extVaultCountOf e cfg)
    (hdiff : |extSourceCountOf e cfg - extVaultCountOf e cfg| <
      max 5 (truncDiv (extSourceCountOf e cfg) 100))
    (hbig : |extSourceCountOf e cfg - extVaultCountOf e cfg| * 2 < mc)
    (h : heuristicOf e cfg mc = .ok p) :
    pyIn "representation differences" p.2 = true := by
  simp only [heuristicOf] at h
  repeat' split at h
  all_goals
    (first
      | exact (‹¬(0 < extSourceCountOf e cfg ∧ 0 < extVaultCountOf e cfg)›
          ⟨hs, hv⟩).elim
      | exact (‹¬|extSourceCountOf e cfg - extVaultCountOf e cfg| <
          max 5 (truncDiv (extSourceCountOf e cfg) 100)› hdiff).elim
      | exact (‹¬|extSourceCountOf e cfg - extVaultCountOf e cfg| * 2 < mc›
          hbig).elim
      | (cases h <;> ((repeat apply pyIn_append_left) <;> decide)))

theorem extract_eq_finish (e : Engine) (cfg : TableConfig) (l : Nat) (mc : Int)
    (p : Int × String) (hq : cfg.custom_except_query.getD "" ≠ "")
    (hc : exceptCountOf e cfg = .ok mc) (h0 : mc ≠ 0)
    (hh : heuristicOf e cfg mc = .ok p) :
    extract_missing_records e cfg l = extractFinish e cfg l p.1 p.2 := by
  unfold extract_missing_records extractAfterCount
  rw [if_neg hq, hc]
  dsimp only
  rw [if_neg h0, hh]

theorem crossCheck_cases (shd drd : Int) (vmsg : String) (ndc satc hubc : Int) :
    ((crossCheck shd drd vmsg ndc satc hubc).1 = shd ∧
      (crossCheck shd drd vmsg ndc satc hubc).2.1 = drd) ∨
    ((crossCheck shd drd vmsg ndc satc hubc).1 = 0 ∧
      (crossCheck shd drd vmsg ndc satc hubc).2.1 = shd) := by
  unfold crossCheck
  repeat' split
  all_goals simp

theorem classify_sum (shd0 : Int) (vmsg : String) (ndc satc hubc : Int)
    (h : pyIn "key-only validation" vmsg = false) :
    (classifyCounts shd0 vmsg ndc satc hubc).1 +
        (classifyCounts shd0 vmsg ndc satc hubc).2.1 = shd0 ∨
    (classifyCounts shd0 vmsg ndc satc hubc).1 +
        (classifyCounts shd0 vmsg ndc satc hubc).2.1 = 2 * shd0 := by
  unfold classifyCounts branchAdjust
  simp only [h]
  by_cases hr : pyIn "representation differences" vmsg = true
  · simp only [hr, if_pos]
    left
    unfold crossCheck
    rw [if_neg (by omega : ¬(0 : Int) < 0)]
    dsimp only
    omega
  · simp only [hr, if_neg, Bool.false_eq_true, if_false]
    rcases crossCheck_cases shd0 shd0 vmsg ndc satc hubc with ⟨h1, h2⟩ | ⟨h1, h2⟩ <;>
      rw [h1, h2] <;> omega

theorem nonneg_firstScalar (e : Engine) (hne : NonnegEngine e) (q : Query)
    (rs : List Row) (v : Int) (hok : e q = .ok rs)
    (hs : firstScalar rs = .ok v) : 0 ≤ v := by
  cases rs with
  | nil =>
    simp only [firstScalar, Except.ok.injEq] at hs
    omega
  | cons r rest =>
    cases r with
    | nil => simp [firstScalar] at hs
    | cons pv pr =>
      simp only [firstScalar, Except.ok.injEq] at hs
      subst hs
      exact hne q _ hok _ (List.mem_cons_self _ _) _ (List.mem_cons_self _ _)

theorem exceptCount_nonneg (e : Engine) (cfg : TableConfig)
    (hne : NonnegEngine e) (mc : Int)
    (hc : exceptCountOf e cfg = .ok mc) : 0 ≤ mc := by
  unfold exceptCountOf at hc
  split at hc
  · cases hc
  · exact nonneg_firstScalar e hne _ _ mc ‹_› hc

theorem extract_count_cases (e : Engine) (cfg : TableConfig) (l : Nat) :
    (extract_missing_records e cfg l).1 = 0 ∨
      ∃ mc, exceptCountOf e cfg = .ok mc ∧
        (extract_missing_records e cfg l).1 = mc := by
  unfold extract_missing_records
  split
  · exact Or.inl rfl
  · cases hA : extractAfterCount e cfg l with
    | error msg => simp [hA]
    | ok r =>
      simp only [hA]
      unfold extractAfterCount at hA
      cases hc : exceptCountOf e cfg with
      | error m => rw [hc] at hA; cases hA
      | ok mc =>
        rw [hc] at hA
        dsimp only at hA
        by_cases h0 : mc = 0
        · rw [if_pos h0] at hA
          injection hA with hA
          rw [← hA]
          exact Or.inl rfl
        · rw [if_neg h0] at hA
          cases hh : heuristicOf e cfg mc with
          | error m2 => rw [hh] at hA; cases hA
          | ok p =>
            rw [hh] at hA
            injection hA with hA
            rw [← hA]
            rcases heuristic_count e cfg mc p hh with h1 | h1
            · rcases extractFinish_count e cfg l p.1 p.2 with h2 | h2
              · exact Or.inl h2
              · exact Or.inr ⟨mc, rfl, by rw [h2, h1]⟩
            · rcases extractFinish_count e cfg l p.1 p.2 with h2 | h2
              · exact Or.inl h2
              · exact Or.inl (by rw [h2, h1.1])

/-- C1, counterexample: on the default classification path (raw difference
count 20, message "All records verified", override not taken because the
expected count difference is 50), `main` reports 20 in BOTH
SOURCE_TO_VAULT_DIFFERENCES and DATA_REPRESENTATION_DIFFERENCES, so the two
fields sum to 40, not to the raw count 20 the extractor returned. -/
theorem c1_redistribution_counterexample :
    (buildReport engC1 cfgC1).source_to_vault_differences = 20 ∧
    (buildReport engC1 cfgC1).data_representation_differences = 20 ∧
    (extract_missing_records engC1 cfgC1 10).1 = 20 ∧
    (20 : Int) + 20 ≠ 20 := by
  decide

/-- C1, amended: outside the dead message-reparsing branch (message containing
"key-only validation", which the extractor only emits together with the
representation phrase), the two report fields sum to the raw extractor count
exactly when the representation branch or the cross-check override fires, and
to twice that count on the default path where both fields are set to it. -/
theorem c1_redistribution_amended (e : Engine) (cfg : TableConfig)
    (h : pyIn "key-only validation"
      (extract_missing_records e cfg 10).2.2 = false) :
    (buildReport e cfg).source_to_vault_differences +
        (buildReport e cfg).data_representation_differences =
      (extract_missing_records e cfg 10).1 ∨
    (buildReport e cfg).source_to_vault_differences +
        (buildReport e cfg).data_representation_differences =
      2 * (extract_missing_records e cfg 10).1 :=
  classify_sum (extract_missing_records e cfg 10).1
    (extract_missing_records e cfg 10).2.2
    (nonDeletedOf e cfg) (satCountOf e cfg).1 (hubCountOf e cfg) h

/-- Witness for the amended C1 at the concrete run of `engC1` on `cfgC1`. -/
theorem c1_redistribution_amended_witness :
    pyIn "key-only validation"
      (extract_missing_records engC1 cfgC1 10).2.2 = false ∧
    ((buildReport engC1 cfgC1).source_to_vault_differences +
        (buildReport engC1 cfgC1).data_representation_differences =
      (extract_missing_records engC1 cfgC1 10).1 ∨
     (buildReport engC1 cfgC1).source_to_vault_differences +
        (buildReport engC1 cfgC1).data_representation_differences =
      2 * (extract_missing_records engC1 cfgC1 10).1) :=
  ⟨by decide, c1_redistribution_amended engC1 cfgC1 (by decide)⟩

/-- C2, amended: whenever the extractor's representation heuristic triggers
(counts close, reported differences more than twice the count gap), the
returned effective count is always 0 and the message marks representation
differences — whatever the secondary key-only count was; the early return at
source line 299 keys off the message set at line 259, not off the secondary
count. -/
theorem c2_secondary_check (e : Engine) (cfg : TableConfig) (mc : Int)
    (hq : cfg.custom_except_query.getD "" ≠ "")
    (hhub : extHubTables cfg ≠ [])
    (hc : exceptCountOf e cfg = .ok mc) (h0 : mc ≠ 0)
    (hs : 0 < extSourceCountOf e cfg) (hv : 0 < extVaultCountOf e cfg)
    (hdiff : |extSourceCountOf e cfg - extVaultCountOf e cfg| <
      max 5 (truncDiv (extSourceCountOf e cfg) 100))
    (hbig : |extSourceCountOf e cfg - extVaultCountOf e cfg| * 2 < mc) :
    (extract_missing_records e cfg 10).1 = 0 ∧
      pyIn "representation differences"
        (extract_missing_records e cfg 10).2.2 = true := by
  obtain ⟨p, hp⟩ := heuristic_ok e cfg mc hhub
  have hrep := heuristic_triggered e cfg mc p hs hv hdiff hbig hp
  have hext := extract_eq_finish e cfg 10 mc p hq hc h0 hp
  rw [hext, extractFinish_repr e cfg 10 p.1 p.2 hrep]
  exact ⟨rfl, hrep⟩

/-- C2, counterexample: heuristic triggered (source 1000, vault 998, raw
differences 50) with a secondary key-only count of 50 — not zero and not
below one tenth of 50 — yet the extractor returns 0, not 50, and the
message is the representation warning, not "All records verified". -/
theorem c2_secondary_check_counterexample :
    engC2 (Query.simplifiedKey "ID2" "S.S.T2" "ISD" "HID2" "DV.H2") =
      .ok [[("C", 50)]] ∧
    ¬((50 : Int) = 0 ∨ (50 : Int) * 10 < 50) ∧
    (extract_missing_records engC2 cfgC2 10).1 = 0 ∧
    pyIn "representation differences"
      (extract_missing_records engC2 cfgC2 10).2.2 = true ∧
    (extract_missing_records engC2 cfgC2 10).2.2 ≠ "All records verified" := by
  refine ⟨rfl, by decide, ?_, ?_, ?_⟩ <;> decide

/-- Witness for the amended C2 at the concrete run of `engC2` on `cfgC2`. -/
theorem c2_secondary_check_witness :
    (extract_missing_records engC2 cfgC2 10).1 = 0 ∧
      pyIn "representation differences"
        (extract_missing_records engC2 cfgC2 10).2.2 = true :=
  c2_secondary_check engC2 cfgC2 50 (by decide) (by decide) rfl (by decide)
    (by decide) (by decide) (by decide) (by decide)

/-- C3 (confirmed): when the engine raises on a mapping's source-table probe
— in particular when it raises on every query for that mapping — the run
returns normally and yields exactly the reports of the other mappings, in
order; per-mapping failure never propagates past the mapping loop. -/
theorem c3_graceful_degradation (e : Engine) (cs1 cs2 : List TableConfig)
    (c : TableConfig) (msg : String)
    (h : e (Query.probe (c.source_table.getD "None")) = .error msg) :
    runMain e (cs1 ++ c :: cs2) = runMain e cs1 ++ runMain e cs2 := by
  unfold runMain
  rw [List.filterMap_append, List.filterMap_cons]
  have hp : processConfig e c = none := by
    unfold processConfig
    rw [h]
  rw [hp]

/-- Witness for C3: a three-mapping run where the middle mapping's engine
queries all fail reduces to the two-report run of the outer mappings. -/
theorem c3_graceful_degradation_witness :
    runMain engC3 ([cfgC3a] ++ cfgC3bad :: [cfgC3b]) =
      runMain engC3 [cfgC3a] ++ runMain engC3 [cfgC3b] :=
  c3_graceful_degradation engC3 [cfgC3a] [cfgC3b] cfgC3bad
    "SQL compilation error: table does not exist" rfl

/-- C4 (confirmed): whenever the classifier cross-check computes
`expected_diff = 2` and sees a reported true-missing count of 20, it zeroes
SOURCE_TO_VAULT_DIFFERENCES and moves the full 20 into
DATA_REPRESENTATION_DIFFERENCES, for any prior representation count and
message. -/
theorem c4_classifier_override (drd : Int) (vmsg : String) (ndc satc hubc : Int)
    (h : expectedDiff ndc satc hubc = 2) :
    (crossCheck 20 drd vmsg ndc satc hubc).1 = 0 ∧
      (crossCheck 20 drd vmsg ndc satc hubc).2.1 = 20 := by
  unfold crossCheck
  rw [h]
  rw [if_pos (by decide : (0 : Int) < 20)]
  rw [if_pos (by decide : max 5 (truncDiv 2 10) < |(20 : Int) - 2|)]
  rw [if_pos (by decide : (2 : Int) < 5 ∧ (10 : Int) < 20)]
  exact ⟨rfl, rfl⟩

/-- Witness for C4 at concrete counts 10 (non-deleted) vs 8 (satellite). -/
theorem c4_classifier_override_witness :
    (crossCheck 20 7 "m" 10 8 0).1 = 0 ∧ (crossCheck 20 7 "m" 10 8 0).2.1 = 20 :=
  c4_classifier_override 7 "m" 10 8 0 (by decide)

/-- C5, counterexample: a mapping with a configured satellite whose count
query returns 0 (non-deleted 10, hub 7).  The claim predicts
`expected_diff = |10 - 0| = 10`; the code computes `|10 - 7| = 3` because it
selects the satellite count only when that count is positive — the report's
validation message records "expected diff of 3", not "of 10". -/
theorem c5_vault_reference_counterexample :
    cfgC5.cur_satellite_table = some "DV.RV.S_T5_LROC_X" ∧
    (buildReport engC5 cfgC5).sat_count = 0 ∧
    (buildReport engC5 cfgC5).non_deleted_count = 10 ∧
    (buildReport engC5 cfgC5).hub_count = 7 ∧
    pyIn "expected diff of 3" (buildReport engC5 cfgC5).validation_message = true ∧
    pyIn "expected diff of 10" (buildReport engC5 cfgC5).validation_message = false := by
  decide

/-- C5, amended: the cross-check's reference is the satellite count exactly
when that count is positive; whenever the satellite count is zero or lower —
configured satellite or not — the hub count is the reference. -/
theorem c5_vault_reference_amended (ndc satc hubc : Int) :
    (0 < satc → expectedDiff ndc satc hubc = |ndc - satc|) ∧
    (satc ≤ 0 → expectedDiff ndc satc hubc = |ndc - hubc|) := by
  refine ⟨fun h => ?_, fun h => ?_⟩
  · unfold expectedDiff vaultRef
    rw [if_pos h]
  · unfold expectedDiff vaultRef
    rw [if_neg (by omega)]

/-- Witness for the amended C5 at satellite counts 8 and 0. -/
theorem c5_vault_reference_amended_witness :
    expectedDiff 10 8 0 = |(10 : Int) - 8| ∧
      expectedDiff 10 0 7 = |(10 : Int) - 7| :=
  ⟨(c5_vault_reference_amended 10 8 0).1 (by decide),
   (c5_vault_reference_amended 10 0 7).2 (by decide)⟩

/-- C6 (confirmed): in every report, non-deleted plus deleted equals the
source count (the deleted count is computed as their difference), and without
a configured deleted-flag column the deleted count is 0 (hence non-deleted
equals source). -/
theorem c6_count_invariant (e : Engine) (cfg : TableConfig) :
    (buildReport e cfg).non_deleted_count + (buildReport e cfg).deleted_count =
      (buildReport e cfg).source_count ∧
    (cfg.deleted_column = none → (buildReport e cfg).deleted_count = 0) := by
  constructor
  · show nonDeletedOf e cfg + deletedOf e cfg = sourceCountOf e cfg
    unfold deletedOf nonDeletedOf
    cases hdel : cfg.deleted_column with
    | none => dsimp only; ring
    | some d => dsimp only; ring
  · intro h
    show deletedOf e cfg = 0
    unfold deletedOf
    rw [h]

/-- Witness for C6 at the concrete run of `engC6` on `cfgC6`. -/
theorem c6_count_invariant_witness :
    (buildReport engC6 cfgC6).non_deleted_count +
        (buildReport engC6 cfgC6).deleted_count =
      (buildReport engC6 cfgC6).source_count ∧
    (buildReport engC6 cfgC6).deleted_count = 0 :=
  ⟨(c6_count_invariant engC6 cfgC6).1, (c6_count_invariant engC6 cfgC6).2 rfl⟩

/-- C7, amended: when every scalar the engine returns is non-negative (as any
real COUNT result is), the extractor never returns a negative count; and
whenever the difference count query reports 0 the result is exactly
`(0, [], "No record differences found")`, before any other count is used. -/
theorem c7_difference_floor (e : Engine) (cfg : TableConfig)
    (hne : NonnegEngine e) :
    0 ≤ (extract_missing_records e cfg 10).1 ∧
    (∀ q, cfg.custom_except_query = some q → q ≠ "" →
      exceptCountOf e cfg = .ok 0 →
      extract_missing_records e cfg 10 =
        (0, [], "No record differences found")) := by
  constructor
  · rcases extract_count_cases e cfg 10 with h | ⟨mc, hc, h⟩
    · rw [h]
    · rw [h]
      exact exceptCount_nonneg e cfg hne mc hc
  · intro q hq hq' hc
    unfold extract_missing_records extractAfterCount
    rw [hq]
    dsimp only [Option.getD]
    rw [if_neg hq', hc]
    dsimp only
    rw [if_pos rfl]

/-- C7, counterexample: an engine answering the difference count query with
the scalar `-5` makes the extractor return `-5`: nothing in the code floors
the count, so "never negative for every engine behavior" fails. -/
theorem c7_difference_floor_counterexample :
    (extract_missing_records engC7 cfgC7 10).1 = -5 ∧ ((-5 : Int) < 0) := by
  decide

/-- Witness for the amended C7 at the all-zero engine on `cfgC7`. -/
theorem c7_difference_floor_witness :
    0 ≤ (extract_missing_records engC7w cfgC7 10).1 ∧
      extract_missing_records engC7w cfgC7 10 =
        (0, [], "No record differences found") := by
  have hne : NonnegEngine engC7w := by
    intro q rs hok r hr p hp
    injection hok with hok
    subst hok
    simp only [List.mem_singleton] at hr
    subst hr
    simp only [List.mem_singleton] at hp
    subst hp
    decide
  have h := c7_difference_floor engC7w cfgC7 hne
  exact ⟨h.1, h.2 "EQ7" rfl (by decide) rfl⟩

/-- C8 (confirmed): for bizview `fact_sales` with reference 1000 (non-deleted
source) and bizview count 600, the raw difference 400 exceeds the fact
threshold 200, but the filtering-pattern exception (fact prefix, smaller
direction, ratio 0.4 below 0.95) suppresses the report: missing = 0. -/
theorem c8_bizview_filtering_suppression :
    bizviewReconcile "BIZVIEW_DB.BIZVIEWS.FACT_SALES" 0 0 1000 600 "" =
      .ok { bizview_type := "fact", is_direct_mapping := false,
            reference_type := "source (non-deleted)", reference_count := 1000,
            bizview_count := 600, comparison_direction := "bizview_smaller",
            raw_difference := 400, threshold := 200, missing := 0 } := rfl

/-- C10 (confirmed): for every mapping with a configured satellite table, the
SATELLITE_COUNT report field comes from a COUNT(DISTINCT hash_key) query only
when a hash key is configured (truthy) and the satellite name carries an
LROC/MROC marker; in every other case — a configured hash key with a
marker-free name, or no configured hash key at all — it comes from a plain
COUNT(*) of the satellite table. -/
theorem c10_satellite_count_query (e : Engine) (cfg : TableConfig)
    (sat : String)
    (hsat : cfg.cur_satellite_table = some sat) (hsat' : sat ≠ "") :
    (∀ hk, cfg.satellite_hash_key = some hk → hk ≠ "" → lrocMarker sat = true →
      (buildReport e cfg).sat_count =
        (get_table_count e (some sat) none (some hk)).1) ∧
    ((cfg.satellite_hash_key.getD "" = "" ∨ lrocMarker sat = false) →
      (buildReport e cfg).sat_count =
        (get_table_count e (some sat) none none).1) := by
  constructor
  · intro hk hhk hhk' hm
    show (satCountOf e cfg).1 = _
    unfold satCountOf
    rw [hsat, hhk]
    dsimp only [Option.getD]
    rw [if_neg hsat', if_pos ⟨hhk', hm⟩]
  · intro hplain
    show (satCountOf e cfg).1 = _
    unfold satCountOf
    rw [hsat]
    dsimp only [Option.getD]
    rw [if_neg hsat']
    rcases hplain with h | h
    · rw [if_neg (fun hand => hand.1 h)]
    · rw [if_neg (fun hand => absurd hand.2 (by simp [h]))]

/-- Witness for C10 at three concrete mappings: LROC name with hash key
(distinct hash-key count), marker-free name with hash key (plain count), and
LROC name without any hash key (plain count). -/
theorem c10_satellite_count_query_witness :
    (buildReport engC10 cfgC10L).sat_count =
      (get_table_count engC10 (some "DV.RV.S_T10_LROC_X") none (some "HK10")).1 ∧
    (buildReport engC10 cfgC10).sat_count =
      (get_table_count engC10 (some "DV.RV.S_T10_HIST") none none).1 ∧
    (buildReport engC10 cfgC10n).sat_count =
      (get_table_count engC10 (some "DV.RV.S_T10_LROC_X") none none).1 :=
  ⟨(c10_satellite_count_query engC10 cfgC10L "DV.RV.S_T10_LROC_X" rfl
      (by decide)).1 "HK10" rfl (by decide) (by decide),
   (c10_satellite_count_query engC10 cfgC10 "DV.RV.S_T10_HIST" rfl
      (by decide)).2 (Or.inr (by decide)),
   (c10_satellite_count_query engC10 cfgC10n "DV.RV.S_T10_LROC_X" rfl
      (by decide)).2 (Or.inl rfl)⟩

/-- C9 (confirmed): with 5000 reported differences, the default limit 10 and
a successful sample query returning ten rows, the extractor's sample is
exactly those ten converted difference rows followed by one trailing summary
note carrying shown = 10 and total = 5000 (4990 further records), eleven
entries in all, and the returned count is 5000. -/
theorem c9_sample_cap (e : Engine) (cfg : TableConfig) (q : String)
    (rows : List Row)
    (hq : cfg.custom_except_query = some q) (hq' : q ≠ "")
    (hhub : extHubTables cfg ≠ [])
    (hc : exceptCountOf e cfg = .ok 5000)
    (hnr : pyIn "representation differences"
      (extract_missing_records e cfg 10).2.2 = false)
    (hs : e (Query.sample q 10) = .ok rows) (hrows : rows.length = 10) :
    (extract_missing_records e cfg 10).2.1 =
      rows.map (fun r => DiffRec.diff r (metaOf cfg)) ++
        [DiffRec.note 10 5000 ((extract_missing_records e cfg 10).2.2)
          (metaOf cfg)] ∧
    (extract_missing_records e cfg 10).2.1.length = 11 ∧
    (extract_missing_records e cfg 10).1 = 5000 := by
  have hqD : cfg.custom_except_query.getD "" = q := by rw [hq]; rfl
  have hqne : cfg.custom_except_query.getD "" ≠ "" := by rw [hqD]; exact hq'
  obtain ⟨p, hp⟩ := heuristic_ok e cfg 5000 hhub
  have hext := extract_eq_finish e cfg 10 5000 p hqne hc (by decide) hp
  rcases heuristic_count e cfg 5000 p hp with h1 | h1
  case inr =>
    exfalso
    rw [hext, extractFinish_repr e cfg 10 p.1 p.2 h1.2] at hnr
    dsimp only at hnr
    rw [h1.2] at hnr
    simp at hnr
  case inl =>
    rw [hext, h1] at hnr ⊢
    unfold extractFinish at hnr ⊢
    set vm : String :=
      if p.2 = "" then (validate_missing_records e cfg 5000).2 else p.2 with hvm
    by_cases hpv : pyIn "representation differences" vm = true
    · exfalso
      rw [extractFinishV_repr e cfg 10 5000 vm hpv] at hnr
      dsimp only at hnr
      rw [hpv] at hnr
      simp at hnr
    · have hpv' : pyIn "representation differences" vm = false := by
        simpa using hpv
      have hcond : ¬((5000 : Int) = 0 ∨
          pyIn "representation differences" vm = true) := by
        simp [hpv']
      have hfin : extractFinishV e cfg 10 5000 vm =
          (5000, rows.map (fun r => DiffRec.diff r (metaOf cfg)) ++
            [DiffRec.note 10 5000 vm (metaOf cfg)], vm) := by
        unfold extractFinishV
        rw [if_neg hcond]
        dsimp only
        rw [if_pos (by decide : (100 : Int) < 5000)]
        rw [hqD]
        rw [show min 10 10 = 10 from rfl]
        rw [hs]
        dsimp only
        rw [if_pos (by decide : ((10 : Nat) : Int) < 5000)]
        rw [if_neg (by simp [hpv'])]
      rw [hfin]
      refine ⟨rfl, ?_, rfl⟩
      simp [hrows]

/-- Witness for C9 at the concrete run of `engC9` on `cfgC9` with the
ten-row sample `rowsC9`. -/
theorem c9_sample_cap_witness :
    (extract_missing_records engC9 cfgC9 10).2.1 =
      rowsC9.map (fun r => DiffRec.diff r (metaOf cfgC9)) ++
        [DiffRec.note 10 5000 ((extract_missing_records engC9 cfgC9 10).2.2)
          (metaOf cfgC9)] ∧
    (extract_missing_records engC9 cfgC9 10).2.1.length = 11 ∧
    (extract_missing_records engC9 cfgC9 10).1 = 5000 :=
  c9_sample_cap engC9 cfgC9 "EQ9" rowsC9 rfl (by decide) (by decide) rfl
    (by decide) rfl (by decide)
